import Mathlib

/-!
Verification of the aws_kinesis_streams sink configuration layer
(src/sinks/aws_kinesis_streams/config.rs): the startup healthcheck, the
retry classifier for put-records calls and the default batch settings.
-/

/-- Mirror of aws_sdk_kinesis::model::StreamDescription, restricted to the
field the healthcheck reads. -/
structure StreamDescription where
  stream_name : Option String
deriving DecidableEq

/-- Mirror of aws_sdk_kinesis::output::DescribeStreamOutput, restricted to
the field the healthcheck reads. -/
structure DescribeStreamOutput where
  stream_description : Option StreamDescription
deriving DecidableEq

/-- Mirror of the HealthcheckError enum of config.rs, parameterised by the
type of the underlying SDK describe-stream error. -/
inductive HealthcheckError (E : Type) where
  | DescribeStreamFailed (source : E)
  | StreamNamesMismatch (name : String) (stream_name : String)
  | NoMatchingStreamName (stream_name : String)
deriving DecidableEq

/-- Shallow embedding of KinesisSinkConfig::healthcheck as a function of the
configured stream name and the result of the describe-stream call.  The Ok
branch reads resp.stream_description.and_then(stream_name).unwrap_or_default()
and compares it with the configured name; the Err branch wraps the SDK error
in DescribeStreamFailed. -/
def healthcheck {E : Type} (stream_name : String)
    (describe_result : Except E DescribeStreamOutput) :
    Except (HealthcheckError E) Unit :=
  match describe_result with
  | Except.ok resp =>
      let name := (resp.stream_description.bind StreamDescription.stream_name).getD ""
      if name = stream_name then
        Except.ok ()
      else
        Except.error (HealthcheckError.StreamNamesMismatch name stream_name)
  | Except.error source => Except.error (HealthcheckError.DescribeStreamFailed source)

/-- Mirror of aws_sdk_kinesis::input::DescribeStreamInput, restricted to the
fields the healthcheck sets. -/
structure DescribeStreamInput where
  stream_name : Option String
  exclusive_start_shard_id : Option String
  limit : Option Nat
deriving DecidableEq

/-- The fluent builder starts with every field unset. -/
def DescribeStreamInput.builder_default : DescribeStreamInput :=
  ⟨none, none, none⟩

/-- Builder method stream_name(s): sets the field to Some s. -/
def DescribeStreamInput.with_stream_name (b : DescribeStreamInput) (s : String) :
    DescribeStreamInput :=
  ⟨some s, b.exclusive_start_shard_id, b.limit⟩

/-- Builder method set_exclusive_start_shard_id(v): sets the field to v. -/
def DescribeStreamInput.set_exclusive_start_shard_id (b : DescribeStreamInput)
    (v : Option String) : DescribeStreamInput :=
  ⟨b.stream_name, v, b.limit⟩

/-- Builder method limit(n): sets the field to Some n. -/
def DescribeStreamInput.with_limit (b : DescribeStreamInput) (n : Nat) :
    DescribeStreamInput :=
  ⟨b.stream_name, b.exclusive_start_shard_id, some n⟩

/-- The describe-stream request the healthcheck builds before sending:
.stream_name(stream_name.clone()).set_exclusive_start_shard_id(None).limit(1). -/
def healthcheck_describe_request (stream_name : String) : DescribeStreamInput :=
  ((DescribeStreamInput.builder_default.with_stream_name
      stream_name).set_exclusive_start_shard_id none).with_limit 1

/-- Mirror of aws_sdk_kinesis::error::PutRecordsErrorKind (payloads dropped:
the classifier only matches on the variant). -/
inductive PutRecordsErrorKind where
  | InvalidArgumentException
  | KmsAccessDeniedException
  | KmsDisabledException
  | KmsInvalidStateException
  | KmsNotFoundException
  | KmsOptInRequired
  | KmsThrottlingException
  | ProvisionedThroughputExceededException
  | ResourceNotFoundException
  | Unhandled
deriving DecidableEq

/-- Mirror of aws_sdk_kinesis::types::SdkError specialised to PutRecordsError:
the ServiceError variant carries the error kind (the raw response, which the
classifier ignores, is dropped). -/
inductive SdkError where
  | ConstructionFailure
  | TimeoutError
  | DispatchFailure
  | ResponseError
  | ServiceError (kind : PutRecordsErrorKind)
deriving DecidableEq

/-- Shallow embedding of KinesisRetryLogic::is_retriable_error.  The generic
classifier crate::aws::is_retriable_error lives outside this excerpt, so it is
passed as a parameter: the method returns true immediately for a ServiceError
of kind ProvisionedThroughputExceededException and otherwise defers to the
generic classifier on the same error. -/
def KinesisRetryLogic.is_retriable_error
    (generic_is_retriable : SdkError → Bool) (error : SdkError) : Bool :=
  match error with
  | SdkError.ServiceError PutRecordsErrorKind.ProvisionedThroughputExceededException =>
      true
  | _ => generic_is_retriable error

namespace KinesisDefaultBatchSettings

/-- Mirror of KinesisDefaultBatchSettings::MAX_EVENTS. -/
def MAX_EVENTS : Option Nat := some 500

/-- Mirror of KinesisDefaultBatchSettings::MAX_BYTES. -/
def MAX_BYTES : Option Nat := some 5000000

/-- Mirror of KinesisDefaultBatchSettings::TIMEOUT_SECS (the f64 value 1.0,
which is exact, embedded as a rational). -/
def TIMEOUT_SECS : Rat := 1

end KinesisDefaultBatchSettings

/-- C1: on a describe-stream success, a returned stream name equal to the
configured stream_name yields Ok, and a present returned name that differs
yields StreamNamesMismatch carrying both the returned and configured names. -/
theorem healthcheck_match_ok_mismatch_err (E : Type) (sn : String)
    (resp : DescribeStreamOutput) :
    ((resp.stream_description.bind StreamDescription.stream_name).getD "" = sn →
      healthcheck sn (Except.ok resp : Except E DescribeStreamOutput) = Except.ok ()) ∧
    (∀ n : String,
      resp.stream_description.bind StreamDescription.stream_name = some n →
      n ≠ sn →
      healthcheck sn (Except.ok resp : Except E DescribeStreamOutput) =
        Except.error (HealthcheckError.StreamNamesMismatch n sn)) := by
  constructor
  · intro h
    simp [healthcheck, h]
  · intro n hn hne
    simp [healthcheck, hn, hne]

/-- Witness for C1 at concrete inputs: configured name "orders" with a
response naming "orders" gives Ok, and with a response naming "orders-eu"
gives the mismatch error carrying both names. -/
theorem healthcheck_match_ok_mismatch_err_witness :
    healthcheck "orders"
        (Except.ok ⟨some ⟨some "orders"⟩⟩ : Except Unit DescribeStreamOutput) =
      Except.ok () ∧
    healthcheck "orders"
        (Except.ok ⟨some ⟨some "orders-eu"⟩⟩ : Except Unit DescribeStreamOutput) =
      Except.error (HealthcheckError.StreamNamesMismatch "orders-eu" "orders") :=
  ⟨(healthcheck_match_ok_mismatch_err Unit "orders" ⟨some ⟨some "orders"⟩⟩).1 (by decide),
   (healthcheck_match_ok_mismatch_err Unit "orders" ⟨some ⟨some "orders-eu"⟩⟩).2
     "orders-eu" (by decide) (by decide)⟩

/-- C2 counterexample: with configured name "orders" and a success response
carrying no stream description, the healthcheck returns StreamNamesMismatch
with the defaulted empty name, not NoMatchingStreamName. -/
theorem healthcheck_missing_name_counterexample :
    healthcheck "orders" (Except.ok ⟨none⟩ : Except Unit DescribeStreamOutput) =
      Except.error (HealthcheckError.StreamNamesMismatch "" "orders") ∧
    healthcheck "orders" (Except.ok ⟨none⟩ : Except Unit DescribeStreamOutput) ≠
      Except.error (HealthcheckError.NoMatchingStreamName "orders") := by
  refine ⟨rfl, ?_⟩
  intro h
  rw [show healthcheck "orders" (Except.ok ⟨none⟩ : Except Unit DescribeStreamOutput) =
        Except.error (HealthcheckError.StreamNamesMismatch "" "orders") from rfl] at h
  simp at h

/-- C2 amended: on a success response whose description or name is absent (or
whose name is empty), the returned name defaults to "", so with a nonempty
configured stream_name the healthcheck returns StreamNamesMismatch carrying
the empty returned name; NoMatchingStreamName is never produced. -/
theorem healthcheck_missing_name_yields_mismatch (E : Type) (sn : String)
    (resp : DescribeStreamOutput)
    (hname : (resp.stream_description.bind StreamDescription.stream_name).getD "" = "")
    (hsn : sn ≠ "") :
    healthcheck sn (Except.ok resp : Except E DescribeStreamOutput) =
      Except.error (HealthcheckError.StreamNamesMismatch "" sn) := by
  have hne : ¬("" = sn) := fun h => hsn (Eq.symm h)
  simp [healthcheck, hname, hne]

/-- Witness for the amended C2: configured name "orders", response with no
description. -/
theorem healthcheck_missing_name_yields_mismatch_witness :
    healthcheck "orders" (Except.ok ⟨none⟩ : Except Unit DescribeStreamOutput) =
      Except.error (HealthcheckError.StreamNamesMismatch "" "orders") :=
  healthcheck_missing_name_yields_mismatch Unit "orders" ⟨none⟩ (by decide) (by decide)

/-- C3: a put-records ServiceError of kind
ProvisionedThroughputExceededException is classified retriable by
KinesisRetryLogic, whatever the generic classifier would say. -/
theorem kinesis_retry_throughput_always_retriable
    (generic_is_retriable : SdkError → Bool) :
    KinesisRetryLogic.is_retriable_error generic_is_retriable
      (SdkError.ServiceError
        PutRecordsErrorKind.ProvisionedThroughputExceededException) = true :=
  rfl

/-- C4: on every error other than the provisioned-throughput-exceeded service
error, KinesisRetryLogic returns exactly the generic classifier's decision. -/
theorem kinesis_retry_defers_to_generic
    (generic_is_retriable : SdkError → Bool) (error : SdkError)
    (h : error ≠ SdkError.ServiceError
      PutRecordsErrorKind.ProvisionedThroughputExceededException) :
    KinesisRetryLogic.is_retriable_error generic_is_retriable error =
      generic_is_retriable error := by
  cases error with
  | ServiceError kind =>
    cases kind with
    | ProvisionedThroughputExceededException => exact absurd rfl h
    | _ => rfl
  | _ => rfl

/-- Witness for C4: a timeout error under the constantly-false generic
classifier is classified exactly as the generic classifier does. -/
theorem kinesis_retry_defers_to_generic_witness :
    KinesisRetryLogic.is_retriable_error (fun _ => false) SdkError.TimeoutError =
      (fun _ => false) SdkError.TimeoutError :=
  kinesis_retry_defers_to_generic (fun _ => false) SdkError.TimeoutError (by decide)

/-- C5: on a failed describe-stream call the healthcheck returns the
DescribeStreamFailed error wrapping the underlying SDK error, and in
particular never Ok. -/
theorem healthcheck_describe_failure (E : Type) (sn : String) (e : E) :
    healthcheck sn (Except.error e : Except E DescribeStreamOutput) =
      Except.error (HealthcheckError.DescribeStreamFailed e) ∧
    healthcheck sn (Except.error e : Except E DescribeStreamOutput) ≠
      Except.ok () := by
  refine ⟨rfl, ?_⟩
  intro h
  simp [healthcheck] at h

/-- C6: the default batch settings are 500 events, 5,000,000 bytes and a
1-second timeout. -/
theorem kinesis_default_batch_settings :
    KinesisDefaultBatchSettings.MAX_EVENTS = some 500 ∧
    KinesisDefaultBatchSettings.MAX_BYTES = some 5000000 ∧
    KinesisDefaultBatchSettings.TIMEOUT_SECS = 1 :=
  ⟨rfl, rfl, rfl⟩

/-- C7: for every configured stream name, the healthcheck's describe-stream
request carries exactly that stream name, no exclusive start shard id, and a
limit of 1. -/
theorem healthcheck_request_shape (sn : String) :
    healthcheck_describe_request sn = ⟨some sn, none, some 1⟩ :=
  rfl

/-- C8: for every describe-stream outcome and configured name, the
healthcheck never returns the NoMatchingStreamName error. -/
theorem healthcheck_never_no_matching (E : Type) (sn : String)
    (r : Except E DescribeStreamOutput) (s : String) :
    healthcheck sn r ≠ Except.error (HealthcheckError.NoMatchingStreamName s) := by
  intro h
  cases r with
  | ok resp =>
    simp only [healthcheck] at h
    split at h <;> simp at h
  | error e => simp [healthcheck] at h

/-- C9: with an empty configured stream_name and a success response carrying
no stream description or no stream name, the healthcheck returns Ok, since the
missing returned name defaults to the empty string before comparison. -/
theorem healthcheck_empty_name_default_ok (E : Type) (resp : DescribeStreamOutput)
    (h : resp.stream_description.bind StreamDescription.stream_name = none) :
    healthcheck "" (Except.ok resp : Except E DescribeStreamOutput) =
      Except.ok () := by
  simp [healthcheck, h]

/-- Witness for C9: empty configured name, response without a description. -/
theorem healthcheck_empty_name_default_ok_witness :
    healthcheck "" (Except.ok ⟨none⟩ : Except Unit DescribeStreamOutput) =
      Except.ok () :=
  healthcheck_empty_name_default_ok Unit ⟨none⟩ (by decide)
